import Mathlib

/-!
Shallow embedding of `tftp-client.py` (a TFTP client), covering the packet
codec (`create_packet_*`, `parse_packet`, `parse_options`, `append_option`),
the option-negotiation phase of `tftp_client_get`, one iteration of the
download loop of `tftp_client_get` and of the upload loop of
`tftp_client_put`, and the local-file check at the head of `tftp_client_put`.

Modelling conventions:
* Python `bytes` values are `List Nat` (each element a byte value).
* Python `str` values that only flow through `.encode()` / `.decode()` are
  identified with their byte lists, so `encode` and `decode` are the identity
  and `len` is the byte length.
* A Python-level uncaught exception (struct.error, ValueError, TypeError,
  AttributeError, IndexError, FileNotFoundError) is an `Option.none` /
  dedicated `crash` result of the embedded function.
* `socket.recvfrom` results are a `RecvEvent`: a datagram together with its
  sender address, a timeout, or a connection reset.
-/

namespace TFTP

/-- `struct.pack("!H", n)`: a 16-bit unsigned value in network (big-endian)
byte order.  All call sites below either pass values below 2^16 or guard the
call explicitly, matching `struct.error` behaviour where it is reachable. -/
def pack16 (n : Nat) : List Nat := [n / 256 % 256, n % 256]

/-- ASCII byte list of a string literal (used for filenames, modes and error
messages, which are all ASCII in the program). -/
def strBytes (s : String) : List Nat := s.data.map Char.toNat

/-- `bytes.split(b"\x00")`: split a byte list at every zero byte.  Like the
Python method, splitting the empty list gives `[[]]` and a trailing zero
yields a trailing empty part. -/
def splitNull : List Nat → List (List Nat)
  | [] => [[]]
  | 0 :: rest => [] :: splitNull rest
  | b :: rest =>
    match splitNull rest with
    | [] => [[b]]
    | p :: ps => (b :: p) :: ps

/-- The value passed to `append_option`: the source passes Python ints from
`create_packet_rrq` and `bytes` objects from `create_packet_data`. -/
inductive OptVal
  | int (n : Nat)
  | bytes (bs : List Nat)
deriving DecidableEq, Repr

/-- `append_option(packet_data, option_code, option_value)`.  Raises
`ValueError("Unsupported option code")` for every code other than
`OPT_BLKSIZE_CODE = 2`; for a `bytes` value it would raise `AttributeError`
(`bytes` has no `to_bytes`); for an int value out of 16-bit range,
`int.to_bytes(2, 'big')` raises `OverflowError`.  All three are `none`. -/
def append_option (packet_data : List Nat) (option_code : Nat) (option_value : OptVal) :
    Option (List Nat) :=
  if option_code = 2 then
    match option_value with
    | .int n =>
      if n < 65536 then some (packet_data ++ pack16 option_code ++ pack16 2 ++ pack16 n)
      else none
    | .bytes _ => none
  else none

/-- `create_packet_rrq(filename, mode, block_size)`.  For a non-default block
size the source first calls `append_option(packet, OPT_EXTENSION, OPT_BLKSIZE_CODE)`
with option code `OPT_EXTENSION = 0`, then `append_option(packet, OPT_BLKSIZE_CODE,
block_size)`; the first call raises `ValueError`. -/
def create_packet_rrq (filename mode : List Nat) (block_size : Nat) : Option (List Nat) :=
  let packet := pack16 1 ++ filename ++ [0] ++ mode ++ [0]
  if block_size ≠ 512 then
    (append_option packet 0 (.int 2)).bind fun p => append_option p 2 (.int block_size)
  else some packet

/-- `create_packet_wrq(filename, mode)`: opcode 2, two null-terminated
strings, no options. -/
def create_packet_wrq (filename mode : List Nat) : List Nat :=
  pack16 2 ++ filename ++ [0] ++ mode ++ [0]

/-- `create_packet_data(block_number, data, block_size)`.  `struct.pack("!HH",
OP_DATA, block_number)` raises `struct.error` for a block number outside
16-bit range; for a non-default block size both `append_option` calls pass
option code `OPT_EXTENSION = 0` (and a `bytes` value), so the first raises
`ValueError`. -/
def create_packet_data (block_number : Nat) (data : List Nat) (block_size : Nat) :
    Option (List Nat) :=
  if block_number ≥ 65536 then none
  else if block_size ≠ 512 then
    (append_option (pack16 3 ++ pack16 block_number ++ data) 0 (.bytes (pack16 2))).bind
      fun p => append_option p 2 (.bytes (pack16 block_size))
  else some (pack16 3 ++ pack16 block_number ++ data)

/-- `create_packet_ack(block_number)`: opcode 4 and the block number.  Every
reachable call passes a block number parsed from two wire bytes, hence below
2^16. -/
def create_packet_ack (block_number : Nat) : List Nat :=
  pack16 4 ++ pack16 block_number

/-- `create_packet_error(error_code, error_message)`: opcode 5, the code, the
message and a terminating null byte. -/
def create_packet_error (error_code : Nat) (error_message : List Nat) : List Nat :=
  pack16 5 ++ pack16 error_code ++ error_message ++ [0]

/-- `parse_options(options_data)`: repeatedly reads a 1-byte option code, a
1-byte length, and that many value bytes, building the (insertion-ordered)
dict.  Reading a length byte past the end of the buffer raises
`struct.error` (`none`); a value slice past the end is silently truncated,
exactly as Python slicing does. -/
def parse_options : List Nat → Option (List (Nat × List Nat))
  | [] => some []
  | [_] => none
  | c :: l :: rest =>
    (parse_options (rest.drop l)).map fun os => (c, rest.take l) :: os
termination_by data => data.length
decreasing_by
  simp only [List.length_drop, List.length_cons]
  omega

/-- Result of `parse_packet`: the `(opcode, payload)` pairs the source
returns, one constructor per opcode.  For a request the third component is
`some opts` when the source returns the 3-tuple `(filename, mode, options)`
and `none` when it returns the 2-tuple `(filename, mode)`. -/
inductive Parsed
  | req (opcode : Nat) (filename mode : List Nat) (options : Option (List (Nat × List Nat)))
  | data (blockNumber : Nat) (payload : List Nat)
  | ack (blockNumber : Nat)
  | err (code : Nat) (message : List Nat)
deriving DecidableEq, Repr

/-- `parse_packet(packet)`.  `none` models both an uncaught exception inside
`parse_packet` (a short buffer for `struct.unpack`, a request without both
null terminators, a malformed option section) and the `None` return for an
opcode outside 1..5 — in either case the caller's tuple unpacking
`opcode, payload = parse_packet(packet)` terminates the program. -/
def parse_packet (packet : List Nat) : Option Parsed :=
  match packet with
  | b0 :: b1 :: rest =>
    let opcode := b0 * 256 + b1
    if opcode = 1 ∨ opcode = 2 then
      match splitNull rest with
      | filename :: mode :: _ =>
        let option_start := 2 + filename.length + 1 + mode.length + 1
        if option_start < packet.length then
          match parse_options (packet.drop option_start) with
          | some opts => some (.req opcode filename mode (some opts))
          | none => none
        else some (.req opcode filename mode none)
      | _ => none
    else if opcode = 3 then
      match rest with
      | r0 :: r1 :: payload => some (.data (r0 * 256 + r1) payload)
      | _ => none
    else if opcode = 4 then
      match rest with
      | r0 :: r1 :: _ => some (.ack (r0 * 256 + r1))
      | _ => none
    else if opcode = 5 then
      match rest with
      | r0 :: r1 :: msgAndNull => some (.err (r0 * 256 + r1) msgAndNull.dropLast)
      | _ => none
    else none
  | _ => none

/-- An `(ip, port)` pair, as returned by `socket.recvfrom`. -/
def Addr : Type := Nat × Nat

instance : DecidableEq Addr := instDecidableEqProd

/-- One result of a blocking `sock.recvfrom(...)` call: a datagram with its
sender address, a `socket.timeout`, or a `ConnectionResetError`. -/
inductive RecvEvent
  | packet (sender : Addr) (bytes : List Nat)
  | timeout
  | reset
deriving DecidableEq

/-- How one iteration of a transfer loop ends. -/
inductive StepOutcome
  /-- fall through to the next `while True` iteration -/
  | next
  /-- `break`: the transfer finished successfully -/
  | done
  /-- `return` after an error path; for the download loop `removed` records
  whether `os.remove(save_path)` ran before returning -/
  | aborted (removed : Bool)
  /-- an uncaught Python exception -/
  | crash
deriving DecidableEq

/-- Mutable state of the download loop of `tftp_client_get`: the expected
block counter `block_number`, the bytes written to the destination file so
far, and the current `(server_ip, server_port)` pair, which `recvfrom`
rebinds on every received datagram. -/
structure GetState where
  block_number : Nat
  sink : List Nat
  remote : Addr
deriving DecidableEq

/-- Result of one loop iteration: how it ended, the datagrams sent (with
their destination address, in order), and the state afterwards. -/
structure Step (σ : Type) where
  outcome : StepOutcome
  sends : List (List Nat × Addr)
  state : σ
deriving DecidableEq

/-- ASCII bytes of `ERROR_MESSAGES[ERR_DISK_FULL]`. -/
def diskFullMessage : List Nat := strBytes "Disk full or allocation exceeded"

/-- One iteration of the `while True` download loop of `tftp_client_get`
(source lines 294–367).  `block_size` is the session block size,
`free_space` the value `shutil.disk_usage(".").free` returns at the check
after a write, and `send_timeouts` the number of consecutive
`socket.timeout` exceptions raised by `sock.sendto` inside the Ack retry
loop (zero in any real run, since a UDP `sendto` does not block on the
peer).  The iteration:
* on `ConnectionResetError` or `socket.timeout` from `recvfrom`: removes the
  partial file and returns;
* on a datagram: rebinds `(server_ip, server_port)` to the sender, parses it;
  a Data packet whose number equals `block_number` is written to the sink,
  then the disk check may abort (sending `Error(3)` and removing the file),
  otherwise the Ack is sent through the retry loop (exhaustion removes the
  file and returns), `block_number` is incremented, and a short payload
  breaks the loop; a Data packet with a lower number is re-acknowledged
  without writing; an Error packet removes the file and returns; anything
  else falls through to the next iteration. -/
def tftp_client_get_step (block_size free_space send_timeouts : Nat)
    (ev : RecvEvent) (st : GetState) : Step GetState :=
  match ev with
  | .reset => ⟨.aborted true, [], st⟩
  | .timeout => ⟨.aborted true, [], st⟩
  | .packet sender bytes =>
    let st := { st with remote := sender }
    match parse_packet bytes with
    | none => ⟨.crash, [], st⟩
    | some (.data recv_block data) =>
      if recv_block = st.block_number then
        let st := { st with sink := st.sink ++ data }
        if free_space < block_size then
          ⟨.aborted true, [(create_packet_error 3 diskFullMessage, st.remote)], st⟩
        else if send_timeouts < 3 then
          let st' := { st with block_number := st.block_number + 1 }
          if data.length < block_size then
            ⟨.done, [(create_packet_ack st.block_number, st.remote)], st'⟩
          else
            ⟨.next, [(create_packet_ack st.block_number, st.remote)], st'⟩
        else
          ⟨.aborted true, [], st⟩
      else if recv_block < st.block_number then
        ⟨.next, [(create_packet_ack recv_block, st.remote)], st⟩
      else
        ⟨.next, [], st⟩
    | some (.err _ _) => ⟨.aborted true, [], st⟩
    | some _ => ⟨.next, [], st⟩

/-- Run the download loop over a list of receive events (with no `sendto`
timeouts), threading the state and collecting the sent datagrams.  An empty
event list leaves the loop blocked in `recvfrom`, reported as `.next`. -/
def tftp_client_get_run (block_size free_space : Nat) (st : GetState) :
    List RecvEvent → Step GetState
  | [] => ⟨.next, [], st⟩
  | ev :: evs =>
    let s := tftp_client_get_step block_size free_space 0 ev st
    match s.outcome with
    | .next =>
      let r := tftp_client_get_run block_size free_space s.state evs
      ⟨r.outcome, s.sends ++ r.sends, r.state⟩
    | o => ⟨o, s.sends, s.state⟩

/-- The receive events produced by a server at `sender` delivering the given
data payloads in order, numbered consecutively from `start`. -/
def serveEvents (sender : Addr) (start : Nat) : List (List Nat) → List RecvEvent
  | [] => []
  | d :: ds => .packet sender (pack16 3 ++ pack16 start ++ d) :: serveEvents sender (start + 1) ds

/-- Outcome of the RRQ-response handling of `tftp_client_get` (source lines
268–286): either the block size the rest of the session uses, or an uncaught
exception. -/
inductive NegotiationResult
  | ok (block_size : Nat)
  | crash
deriving DecidableEq

/-- The option-negotiation phase of `tftp_client_get`: parse the first reply;
when it is an RRQ-shaped packet whose payload is the 3-tuple carrying
options, the source calls `parse_options(options_data)` a second time — but
`options_data` is already the dict built inside `parse_packet`, and slicing a
dict raises an uncaught `TypeError`.  (With an empty dict the re-parse loop
body never runs, and neither option code is found.)  Any other reply leaves
`block_size` unchanged. -/
def negotiate_block_size (block_size : Nat) (reply : List Nat) : NegotiationResult :=
  match parse_packet reply with
  | none => .crash
  | some (.req opcode _ _ (some opts)) =>
    if opcode = 1 then (if opts.isEmpty then .ok block_size else .crash)
    else .ok block_size
  | some _ => .ok block_size

/-- Mutable state of the upload loop of `tftp_client_put`: the number of the
next Data block to send, the read position inside the source file (the file
object's cursor), and the current remote address. -/
structure PutState where
  block_number : Nat
  pos : Nat
  remote : Addr
deriving DecidableEq

/-- One iteration of the `while True` upload loop of `tftp_client_put`
(source lines 392–417).  `file` is the full content of the local source
file.  A `socket.timeout` from `recvfrom` prints and returns (no retry, no
cleanup); a `ConnectionResetError` is not caught in this loop and crashes.
On `Ack(n)` with `n + 1` equal to `block_number`, the next `f.read(block_size)`
chunk is sent as `create_packet_data(block_number, data)` — with the default
block-size argument, so no option bytes — the counter and file cursor
advance, and a short chunk breaks the loop.  Any other Ack is ignored; an
Error packet returns. -/
def tftp_client_put_step (file : List Nat) (block_size : Nat)
    (ev : RecvEvent) (st : PutState) : Step PutState :=
  match ev with
  | .timeout => ⟨.aborted false, [], st⟩
  | .reset => ⟨.crash, [], st⟩
  | .packet sender bytes =>
    let st := { st with remote := sender }
    match parse_packet bytes with
    | none => ⟨.crash, [], st⟩
    | some (.ack recv_block) =>
      if recv_block + 1 = st.block_number then
        let data := (file.drop st.pos).take block_size
        match create_packet_data st.block_number data 512 with
        | none => ⟨.crash, [], st⟩
        | some dp =>
          let st' := { st with block_number := st.block_number + 1, pos := st.pos + data.length }
          if data.length < block_size then ⟨.done, [(dp, st.remote)], st'⟩
          else ⟨.next, [(dp, st.remote)], st'⟩
      else ⟨.next, [], st⟩
    | some (.err _ _) => ⟨.aborted false, [], st⟩
    | some _ => ⟨.next, [], st⟩

/-- How `tftp_client_put` proceeds after sending the WRQ (source lines
382–429), as far as the local file is concerned. -/
inductive PutFileCheck
  /-- `open(client_filename, "rb")` succeeded: the upload loop runs on the
  file at this path -/
  | transfer (path : List String)
  /-- `os.path.isfile` passed but `open` raised an uncaught
  `FileNotFoundError` -/
  | fileNotFound
  /-- the `else` branch: await one reply, then send `Error(1)` -/
  | sendError
deriving DecidableEq

/-- The local-file handling of `tftp_client_put`: the existence check uses
`os.path.join(file_dir, client_filename)` while the `open` uses the bare
`client_filename`, which the OS resolves against the current working
directory.  Paths are component lists, `os.path.join` is `++`, and `fs p`
tells whether a regular file exists at absolute path `p`. -/
def tftp_client_put_file_check (fs : List String → Bool)
    (cwd file_dir : List String) (client_filename : String) : PutFileCheck :=
  if fs (file_dir ++ [client_filename]) then
    if fs (cwd ++ [client_filename]) then .transfer (cwd ++ [client_filename])
    else .fileNotFound
  else .sendError

end TFTP

namespace TFTP

/-- A Data packet built from `pack16` fields parses back to its block number
and payload whenever the block number fits in 16 bits. -/
theorem parse_packet_data_wire (b : Nat) (d : List Nat) (hb : b < 65536) :
    parse_packet (pack16 3 ++ pack16 b ++ d) = some (.data b d) := by
  have h : b / 256 % 256 * 256 + b % 256 = b := by omega
  simp [parse_packet, pack16, h]

/-- An Ack packet built by `create_packet_ack` parses back to its block
number whenever the block number fits in 16 bits. -/
theorem parse_packet_ack_wire (b : Nat) (hb : b < 65536) :
    parse_packet (create_packet_ack b) = some (.ack b) := by
  have h : b / 256 % 256 * 256 + b % 256 = b := by omega
  simp [parse_packet, create_packet_ack, pack16, h]

/-- Claim C1 theorem: the encoder itself fails on every options-carrying
request or data packet.  `create_packet_rrq("a.txt", "octet", 1024)` raises
`ValueError("Unsupported option code")` because `append_option` is first
invoked with option code `OPT_EXTENSION = 0`; `create_packet_data(1, b"A",
1024)` fails the same way.  Hence no options-carrying packet is ever
produced, so `parse_packet` applied to the output of these encoders cannot
return the option pairs the claim requires. -/
theorem c1_option_requests_cannot_be_encoded :
    create_packet_rrq (strBytes "a.txt") (strBytes "octet") 1024 = none ∧
      create_packet_data 1 (strBytes "A") 1024 = none := by
  constructor <;> rfl

/-- Claim C9 counterexample: encoding `ReadRequest{filename="a.txt",
mode="octet", options=[]}` does not produce the claimed byte sequence
`01 00 61 2E 74 78 74 00 6F 63 74 65 74 00`: the opcode is emitted in network
byte order as `00 01`, not `01 00`.  The first conjunct computes the actual
encoding; the second shows it differs from the claimed one. -/
theorem c9_counterexample_opcode_bytes :
    create_packet_rrq (strBytes "a.txt") (strBytes "octet") 512 =
        some [0x00, 0x01, 0x61, 0x2E, 0x74, 0x78, 0x74, 0x00,
              0x6F, 0x63, 0x74, 0x65, 0x74, 0x00] ∧
      ([0x00, 0x01, 0x61, 0x2E, 0x74, 0x78, 0x74, 0x00,
        0x6F, 0x63, 0x74, 0x65, 0x74, 0x00] : List Nat) ≠
        [0x01, 0x00, 0x61, 0x2E, 0x74, 0x78, 0x74, 0x00,
         0x6F, 0x63, 0x74, 0x65, 0x74, 0x00] := by
  constructor
  · rfl
  · decide

/-- Claim C9 (amended) theorem: encoding `ReadRequest{filename="a.txt",
mode="octet", options=[]}` yields exactly the 14-byte sequence
`00 01 61 2E 74 78 74 00 6F 63 74 65 74 00`, the 16-bit opcode in network
(big-endian) byte order. -/
theorem c9_rrq_concrete_encoding :
    create_packet_rrq (strBytes "a.txt") (strBytes "octet") 512 =
      some [0x00, 0x01, 0x61, 0x2E, 0x74, 0x78, 0x74, 0x00,
            0x6F, 0x63, 0x74, 0x65, 0x74, 0x00] := by
  rfl

end TFTP

namespace TFTP

/-- Claim C2: when the download loop receives a Data packet whose block
number is strictly below the expected `block_number`, it re-sends the Ack
carrying that lower number (to the packet's sender), writes nothing to the
sink, and leaves the expected block counter unchanged: the resulting state
differs from the input state only in the remote address that `recvfrom`
rebinds. -/
theorem c2_duplicate_data_reacked_without_write
    (block_size free_space send_timeouts : Nat) (sender : Addr) (recv : Nat)
    (d : List Nat) (st : GetState) (hr : recv < st.block_number) (h16 : recv < 65536) :
    tftp_client_get_step block_size free_space send_timeouts
        (.packet sender (pack16 3 ++ pack16 recv ++ d)) st =
      ⟨.next, [(create_packet_ack recv, sender)], { st with remote := sender }⟩ := by
  simp only [tftp_client_get_step, parse_packet_data_wire recv d h16]
  rw [if_neg (by exact Nat.ne_of_lt hr), if_pos hr]

/-- Witness for C2 at a concrete duplicate: expected block 2, received
block 1. -/
theorem c2_duplicate_data_reacked_without_write_witness :
    tftp_client_get_step 512 4096 0 (.packet (2, 70) (pack16 3 ++ pack16 1 ++ [9]))
        ⟨2, [7], (1, 69)⟩ =
      ⟨.next, [(create_packet_ack 1, (2, 70))], ⟨2, [7], (2, 70)⟩⟩ :=
  c2_duplicate_data_reacked_without_write 512 4096 0 (2, 70) 1 [9] ⟨2, [7], (1, 69)⟩
    (by decide) (by decide)

end TFTP

namespace TFTP

/-- Claim C4 theorem (evaluation at the failing scenario): with blocks 1 and 2
already received (expected block 3, 1024 bytes in the sink), a single
`socket.timeout` from `recvfrom` makes the download loop remove the partial
file and return immediately — it sends no datagram at all, so Ack(2) is never
resent and no retry takes place.  The only retry loop in the source wraps
`sock.sendto` of an Ack, which a UDP send does not make time out, so the
receive-retry policy the claim describes does not exist in the code. -/
theorem c4_receive_timeout_aborts_without_resend :
    tftp_client_get_step 512 100000 0 .timeout ⟨3, List.replicate 1024 65, (1, 69)⟩ =
      ⟨.aborted true, [], ⟨3, List.replicate 1024 65, (1, 69)⟩⟩ := rfl

/-- Claim C5 counterexample: a first reply shaped like an RRQ carrying a
`blksize` option (filename `"a"`, mode `"octet"`, option bytes
`02 02 04 00`, i.e. a block size of 1024 against a requested 512) does not
give the session an effective block size at all: the negotiation code calls
`parse_options` a second time on the dict `parse_packet` already built, which
raises an uncaught `TypeError`.  No session ever continues past an
options-carrying option-acknowledgment, so it is false that "for every
block-size value carried in the server's option-acknowledgment reply" the
session goes on with an effective block size at most the requested one. -/
theorem c5_counterexample_oack_crashes :
    negotiate_block_size 512
        ([0, 1] ++ strBytes "a" ++ [0] ++ strBytes "octet" ++ [0] ++ [2, 2, 4, 0]) =
      .crash := by
  simp [negotiate_block_size, parse_packet, parse_options, splitNull, strBytes]

/-- Claim C5 (amended) theorem: server negotiation never changes the block
size.  Whenever the negotiation phase completes without crashing, the
effective block size for the rest of the session is exactly the one the
client requested (hence trivially not greater); an options-carrying
option-acknowledgment never completes — it raises an uncaught `TypeError`
instead. -/
theorem c5_effective_block_size_is_requested (block_size : Nat) (reply : List Nat)
    (b : Nat) (h : negotiate_block_size block_size reply = .ok b) : b = block_size := by
  unfold negotiate_block_size at h
  split at h
  · exact absurd h (by simp)
  · split at h
    · split at h
      · injection h with h; exact h.symm
      · exact absurd h (by simp)
    · injection h with h; exact h.symm
  · injection h with h; exact h.symm

/-- Witness for C5 (amended): a first reply that is a Data packet leaves the
requested block size 512 in effect. -/
theorem c5_effective_block_size_is_requested_witness :
    negotiate_block_size 512 [0, 3, 0, 1] = .ok 512 ∧ (512 : Nat) = 512 :=
  ⟨rfl, c5_effective_block_size_is_requested 512 [0, 3, 0, 1] 512 rfl⟩

/-- Claim C7 counterexample: with the remote address learned as `(10, 69)`,
a Data packet for the expected block arriving from the foreign address
`(99, 1000)` is not discarded: its payload is written to the sink, it is
acknowledged — to the foreign address — and the session's remote address is
re-learned as the foreign sender.  This contradicts the claim that packets
from any other address/port are silently discarded. -/
theorem c7_counterexample_foreign_packet_processed :
    tftp_client_get_step 512 4096 0 (.packet (99, 1000) (pack16 3 ++ pack16 1 ++ [7]))
        ⟨1, [], (10, 69)⟩ =
      ⟨.done, [(create_packet_ack 1, (99, 1000))], ⟨2, [7], (99, 1000)⟩⟩ := rfl

/-- Claim C7 (amended) theorem: neither loop performs any sender check.  Every
received datagram is processed identically whatever remote address had been
learned before (the stored remote address has no influence on the step), and
after any received datagram the session's remote address is the sender of
that datagram — `recvfrom` re-learns it on every packet. -/
theorem c7_no_sender_address_check :
    (∀ (block_size free_space send_timeouts : Nat) (sender : Addr) (bytes : List Nat)
       (st : GetState) (r : Addr),
       tftp_client_get_step block_size free_space send_timeouts (.packet sender bytes) st =
         tftp_client_get_step block_size free_space send_timeouts (.packet sender bytes)
           { st with remote := r } ∧
       (tftp_client_get_step block_size free_space send_timeouts
           (.packet sender bytes) st).state.remote = sender) ∧
    (∀ (file : List Nat) (block_size : Nat) (sender : Addr) (bytes : List Nat)
       (st : PutState) (r : Addr),
       tftp_client_put_step file block_size (.packet sender bytes) st =
         tftp_client_put_step file block_size (.packet sender bytes)
           { st with remote := r } ∧
       (tftp_client_put_step file block_size (.packet sender bytes) st).state.remote
         = sender) := by
  constructor
  · intro block_size free_space send_timeouts sender bytes st r
    refine ⟨rfl, ?_⟩
    simp only [tftp_client_get_step]
    cases parse_packet bytes with
    | none => rfl
    | some p =>
      cases p with
      | req op f m o => rfl
      | data b d =>
        dsimp only
        split
        · split
          · rfl
          · split
            · split <;> rfl
            · rfl
        · split <;> rfl
      | ack b => rfl
      | err c m => rfl
  · intro file block_size sender bytes st r
    refine ⟨rfl, ?_⟩
    simp only [tftp_client_put_step]
    cases parse_packet bytes with
    | none => rfl
    | some p =>
      cases p with
      | req op f m o => rfl
      | data b d => rfl
      | ack b =>
        dsimp only
        split
        · split
          · rfl
          · split <;> rfl
        · rfl
      | err c m => rfl

/-- Claim C8: every iteration of the download loop either continues, finishes,
crashes on an unparseable packet, or returns along one of the fatal paths —
remote Error packet, receive timeout, connection reset, disk-full, or
send-retry exhaustion — and on every one of those fatal paths the partially
written file has been removed (`removed = true`); no fatal return of the loop
leaves the partial file in place. -/
theorem c8_fatal_paths_remove_partial_file
    (block_size free_space send_timeouts : Nat) (ev : RecvEvent) (st : GetState) :
    (tftp_client_get_step block_size free_space send_timeouts ev st).outcome = .next ∨
    (tftp_client_get_step block_size free_space send_timeouts ev st).outcome = .done ∨
    (tftp_client_get_step block_size free_space send_timeouts ev st).outcome = .crash ∨
    (tftp_client_get_step block_size free_space send_timeouts ev st).outcome =
      .aborted true := by
  cases ev with
  | reset => simp [tftp_client_get_step]
  | timeout => simp [tftp_client_get_step]
  | packet sender bytes =>
    simp only [tftp_client_get_step]
    cases parse_packet bytes with
    | none => simp
    | some p =>
      cases p with
      | req op f m o => simp
      | data b d =>
        dsimp only
        split
        · split
          · simp
          · split
            · split <;> simp
            · simp
        · split <;> simp
      | ack b => simp
      | err c m => simp

/-- Claim C10 counterexample: when the same filename also exists in the
current working directory, the call does not raise `FileNotFoundError` even
though the joined path names an existing file and `file_dir` differs from the
current working directory — `open` silently uses the file in the current
working directory and the transfer proceeds with it. -/
theorem c10_counterexample_same_name_in_cwd :
    tftp_client_put_file_check
        (fun p => (p == ["d", "f.txt"]) || (p == ["c", "f.txt"])) ["c"] ["d"] "f.txt" =
        .transfer ["c", "f.txt"] ∧
      ((fun p => (p == ["d", "f.txt"]) || (p == ["c", "f.txt"]))
          (["d"] ++ ["f.txt"]) = true) ∧
      (["d"] : List String) ≠ ["c"] := by
  refine ⟨rfl, rfl, by decide⟩

/-- Claim C10 (amended) theorem: if the joined path
`os.path.join(file_dir, client_filename)` names an existing file, `file_dir`
is not the current working directory, and the bare `client_filename` does not
name an existing file in the current working directory, then the call raises
an uncaught `FileNotFoundError` from `open(client_filename, "rb")` instead of
performing the transfer or sending an Error packet: the existence check uses
the joined path while the open uses the bare filename relative to the current
directory. -/
theorem c10_isfile_open_path_mismatch (fs : List String → Bool)
    (cwd file_dir : List String) (client_filename : String)
    (hjoined : fs (file_dir ++ [client_filename]) = true)
    (_hdir : file_dir ≠ cwd)
    (hcwd : fs (cwd ++ [client_filename]) = false) :
    tftp_client_put_file_check fs cwd file_dir client_filename = .fileNotFound := by
  simp [tftp_client_put_file_check, hjoined, hcwd]

/-- Witness for C10 (amended): the file exists only under `["d"]` while the
current working directory is `["c"]`. -/
theorem c10_isfile_open_path_mismatch_witness :
    tftp_client_put_file_check (fun p => p == ["d", "g"]) ["c"] ["d"] "g" = .fileNotFound :=
  c10_isfile_open_path_mismatch (fun p => p == ["d", "g"]) ["c"] ["d"] "g"
    (by decide) (by decide) (by decide)

/-- One download-loop iteration on the Data packet the session is waiting for
(its number equal to `st.block_number`, which fits in 16 bits), with enough
free disk space and no `sendto` timeouts: the payload is appended to the
sink, the Ack for that block is sent to the sender, the expected counter is
incremented by exactly one, and the loop breaks exactly when the payload is
shorter than the block size. -/
theorem tftp_client_get_step_matched (block_size free_space : Nat) (sender : Addr)
    (d : List Nat) (st : GetState) (hb : st.block_number < 65536)
    (hfs : block_size ≤ free_space) :
    tftp_client_get_step block_size free_space 0
        (.packet sender (pack16 3 ++ pack16 st.block_number ++ d)) st =
      ⟨if d.length < block_size then .done else .next,
       [(create_packet_ack st.block_number, sender)],
       ⟨st.block_number + 1, st.sink ++ d, sender⟩⟩ := by
  simp only [tftp_client_get_step, parse_packet_data_wire st.block_number d hb]
  rw [if_pos trivial, if_neg (show ¬ free_space < block_size by omega),
    if_pos (show (0 : Nat) < 3 by omega)]
  split <;> rfl

end TFTP

namespace TFTP

/-- Claim C6 counterexample: block numbers are not modulo-65536 counters.
After 65535 accepted blocks the expected counter holds 65536 (not 0), and a
Data packet carrying the 16-bit block number 0 — which equals the counter
modulo 65536, so the claim says it is accepted — is instead handled as a
duplicate: it is re-acknowledged with Ack(0), nothing is written to the sink,
and the counter stays 65536. -/
theorem c6_counterexample_no_wraparound :
    tftp_client_get_step 512 4096 0 (.packet (1, 69) (pack16 3 ++ pack16 0 ++ [7]))
        ⟨65536, [], (1, 69)⟩ =
      ⟨.next, [(create_packet_ack 0, (1, 69))], ⟨65536, [], (1, 69)⟩⟩ ∧
    (0 : Nat) % 65536 = 65536 % 65536 := by
  exact ⟨rfl, by decide⟩

/-- Claim C6 (amended) theorem: the block counters never wrap.  (1) A received
Data packet advances the download's expected counter exactly when its 16-bit
block number equals the counter's exact value — not its value modulo 65536 —
and then the counter becomes `block_number + 1` without any modulo.  (2) Once
the expected counter exceeds 65535 (as in a transfer of more than 65535
blocks), every arriving Data packet has a strictly smaller 16-bit number and
is handled as a duplicate: re-acknowledged, never written, the counter never
advancing, so the download accepts no block from then on.  (3) In an upload,
when the next-to-send counter reaches 65536 and the server acknowledges block
65535, the client crashes with an uncaught `struct.error` while building the
Data packet instead of wrapping to block 0. -/
theorem c6_block_counters_do_not_wrap :
    (∀ (block_size free_space : Nat) (sender : Addr) (recv : Nat) (d : List Nat)
       (st : GetState), recv < 65536 → block_size ≤ free_space →
       ((tftp_client_get_step block_size free_space 0
           (.packet sender (pack16 3 ++ pack16 recv ++ d)) st).state.block_number =
           st.block_number + 1 ↔ recv = st.block_number)) ∧
    (∀ (block_size free_space : Nat) (sender : Addr) (recv : Nat) (d : List Nat)
       (st : GetState), 65536 ≤ st.block_number → recv < 65536 →
       tftp_client_get_step block_size free_space 0
           (.packet sender (pack16 3 ++ pack16 recv ++ d)) st =
         ⟨.next, [(create_packet_ack recv, sender)], { st with remote := sender }⟩) ∧
    (∀ (file : List Nat) (sender : Addr) (st : PutState), st.block_number = 65536 →
       tftp_client_put_step file 512 (.packet sender (create_packet_ack 65535)) st =
         ⟨.crash, [], { st with remote := sender }⟩) := by
  refine ⟨?_, ?_, ?_⟩
  · intro block_size free_space sender recv d st h16 hfs
    by_cases he : recv = st.block_number
    · subst he
      rw [tftp_client_get_step_matched block_size free_space sender d st h16 hfs]
      constructor
      · intro _; rfl
      · intro _
        split <;> rfl
    · simp only [tftp_client_get_step, parse_packet_data_wire recv d h16]
      rw [if_neg he]
      constructor
      · intro hc
        exfalso
        rcases Nat.lt_or_ge recv st.block_number with hlt | hge
        · rw [if_pos hlt] at hc
          simp at hc
        · rw [if_neg (by omega)] at hc
          simp at hc
      · intro hc; exact absurd hc he
  · intro block_size free_space sender recv d st hbig h16
    simp only [tftp_client_get_step, parse_packet_data_wire recv d h16]
    rw [if_neg (by omega), if_pos (by omega)]
  · intro file sender st h
    simp only [tftp_client_put_step, parse_packet_ack_wire 65535 (by omega)]
    rw [if_pos (by omega)]
    have hc : create_packet_data st.block_number ((file.drop st.pos).take 512) 512 = none := by
      rw [h]
      simp [create_packet_data]
    rw [hc]

/-- Witness for C6 (amended), part (3) at a concrete state: an upload whose
counter has reached 65536 crashes on the acknowledgment of block 65535. -/
theorem c6_block_counters_do_not_wrap_witness :
    tftp_client_put_step [] 512 (.packet (1, 69) (create_packet_ack 65535))
        ⟨65536, 0, (1, 69)⟩ =
      ⟨.crash, [], ⟨65536, 0, (1, 69)⟩⟩ :=
  c6_block_counters_do_not_wrap.2.2 [] (1, 69) ⟨65536, 0, (1, 69)⟩ rfl

end TFTP

namespace TFTP

/-- `serveEvents` distributes over list append, the second part starting
where the first ends. -/
theorem serveEvents_append (sender : Addr) :
    ∀ (xs ys : List (List Nat)) (start : Nat),
      serveEvents sender start (xs ++ ys) =
        serveEvents sender start xs ++ serveEvents sender (start + xs.length) ys := by
  intro xs
  induction xs with
  | nil => intro ys start; simp [serveEvents]
  | cons x xs ih =>
    intro ys start
    have h : start + (xs.length + 1) = start + 1 + xs.length := by omega
    simp only [List.cons_append, serveEvents, List.length_cons, List.append_eq, h,
      ih ys (start + 1)]

/-- Running the download loop over a sequence of consecutive full-size Data
packets: every block is accepted and acknowledged (one send per block), the
expected counter advances by the number of blocks, every payload lands in the
sink in order, and the loop does not finish — a payload equal to the block
size never terminates the transfer. -/
theorem tftp_client_get_run_full_blocks (block_size free_space : Nat) (sender : Addr)
    (hfs : block_size ≤ free_space) :
    ∀ (blocks : List (List Nat)) (st : GetState),
      (∀ b ∈ blocks, b.length = block_size) →
      st.block_number + blocks.length < 65536 →
      (tftp_client_get_run block_size free_space st
          (serveEvents sender st.block_number blocks)).outcome = .next ∧
      (tftp_client_get_run block_size free_space st
          (serveEvents sender st.block_number blocks)).state.block_number =
        st.block_number + blocks.length ∧
      (tftp_client_get_run block_size free_space st
          (serveEvents sender st.block_number blocks)).state.sink =
        st.sink ++ blocks.flatten ∧
      (tftp_client_get_run block_size free_space st
          (serveEvents sender st.block_number blocks)).sends.length = blocks.length := by
  intro blocks
  induction blocks with
  | nil =>
    intro st h1 hb
    simp [serveEvents, tftp_client_get_run]
  | cons b bs ih =>
    intro st h1 hb
    have hb1 : b.length = block_size := h1 b (List.mem_cons_self b bs)
    have hlt : st.block_number < 65536 := by
      simp only [List.length_cons] at hb
      omega
    simp only [serveEvents, tftp_client_get_run]
    rw [tftp_client_get_step_matched block_size free_space sender b st hlt hfs]
    rw [if_neg (by omega)]
    dsimp only
    have hih := ih ⟨st.block_number + 1, st.sink ++ b, sender⟩
      (fun x hx => h1 x (List.mem_cons_of_mem b hx))
      (by simp only [List.length_cons] at hb ⊢; omega)
    dsimp only at hih
    refine ⟨hih.1, ?_, ?_, ?_⟩
    · rw [hih.2.1]
      simp only [List.length_cons]
      omega
    · rw [hih.2.2.1]
      simp [List.append_assoc]
    · simp only [List.length_append, hih.2.2.2, List.length_cons, List.length_nil]
      omega

/-- Splitting a download-loop run at a point where it is still looping: the
outcome of the whole run is the outcome of the second part started from the
first part's final state, and the sends concatenate. -/
theorem tftp_client_get_run_append (block_size free_space : Nat) :
    ∀ (l1 l2 : List RecvEvent) (st : GetState),
      (tftp_client_get_run block_size free_space st l1).outcome = .next →
      (tftp_client_get_run block_size free_space st (l1 ++ l2)).outcome =
          (tftp_client_get_run block_size free_space
            (tftp_client_get_run block_size free_space st l1).state l2).outcome ∧
        (tftp_client_get_run block_size free_space st (l1 ++ l2)).sends.length =
          (tftp_client_get_run block_size free_space st l1).sends.length +
            (tftp_client_get_run block_size free_space
              (tftp_client_get_run block_size free_space st l1).state l2).sends.length := by
  intro l1
  induction l1 with
  | nil => intro l2 st h; simp [tftp_client_get_run]
  | cons ev l1 ih =>
    intro l2 st h
    simp only [List.cons_append, List.append_eq, tftp_client_get_run] at h ⊢
    generalize hq : tftp_client_get_step block_size free_space 0 ev st = s at h ⊢
    obtain ⟨o, sends, stt⟩ := s
    cases o with
    | next =>
      dsimp only at h ⊢
      have hr := ih l2 stt h
      refine ⟨hr.1, ?_⟩
      simp only [List.length_append, hr.2]
      omega
    | done => exact absurd h (by simp)
    | aborted r => exact absurd h (by simp)
    | crash => exact absurd h (by simp)

/-- A single Data packet for the expected block whose payload is shorter than
the block size finishes the download in exactly one Data/Ack exchange. -/
theorem tftp_client_get_run_single_short (block_size free_space : Nat) (sender : Addr)
    (d : List Nat) (st : GetState) (hb : st.block_number < 65536)
    (hfs : block_size ≤ free_space) (hd : d.length < block_size) :
    tftp_client_get_run block_size free_space st
        [.packet sender (pack16 3 ++ pack16 st.block_number ++ d)] =
      ⟨.done, [(create_packet_ack st.block_number, sender)],
       ⟨st.block_number + 1, st.sink ++ d, sender⟩⟩ := by
  simp only [tftp_client_get_run]
  rw [tftp_client_get_step_matched block_size free_space sender d st hb hfs]
  rw [if_pos hd]

end TFTP

namespace TFTP

/-- Claim C3: a transfer terminates successfully exactly when a data payload
strictly shorter than the negotiated block size is received (download) or
sent (upload), including a zero-length final payload.  (1) The download loop
breaks on a Data packet for the expected block exactly when its payload is
shorter than the block size.  (2) The upload loop breaks after sending the
next chunk exactly when that chunk is shorter than the block size.  (3) A
file that is an exact multiple of the block size — a sequence of full-size
blocks — never finishes by itself: the loop is still running after all of
them (one Ack per block), and finishes only after the additional empty
Data/Ack exchange, which adds exactly one more Ack.  (4) A file shorter than
one block finishes after exactly one Data/Ack pair. -/
theorem c3_short_payload_terminates_transfer :
    (∀ (block_size free_space : Nat) (sender : Addr) (d : List Nat) (st : GetState),
       st.block_number < 65536 → block_size ≤ free_space →
       ((tftp_client_get_step block_size free_space 0
           (.packet sender (pack16 3 ++ pack16 st.block_number ++ d)) st).outcome = .done ↔
         d.length < block_size)) ∧
    (∀ (file : List Nat) (block_size : Nat) (sender : Addr) (recv : Nat) (st : PutState),
       recv < 65536 → recv + 1 = st.block_number → st.block_number < 65536 →
       ((tftp_client_put_step file block_size
           (.packet sender (create_packet_ack recv)) st).outcome = .done ↔
         ((file.drop st.pos).take block_size).length < block_size)) ∧
    (∀ (block_size free_space : Nat) (sender : Addr) (blocks : List (List Nat))
       (st : GetState),
       (∀ b ∈ blocks, b.length = block_size) → 0 < block_size →
       block_size ≤ free_space → st.block_number + blocks.length < 65536 →
       (tftp_client_get_run block_size free_space st
           (serveEvents sender st.block_number blocks)).outcome = .next ∧
       (tftp_client_get_run block_size free_space st
           (serveEvents sender st.block_number blocks)).sends.length = blocks.length ∧
       (tftp_client_get_run block_size free_space st
           (serveEvents sender st.block_number (blocks ++ [[]]))).outcome = .done ∧
       (tftp_client_get_run block_size free_space st
           (serveEvents sender st.block_number (blocks ++ [[]]))).sends.length =
         blocks.length + 1) ∧
    (∀ (block_size free_space : Nat) (sender : Addr) (d : List Nat) (st : GetState),
       st.block_number < 65536 → block_size ≤ free_space → d.length < block_size →
       tftp_client_get_run block_size free_space st
           [.packet sender (pack16 3 ++ pack16 st.block_number ++ d)] =
         ⟨.done, [(create_packet_ack st.block_number, sender)],
          ⟨st.block_number + 1, st.sink ++ d, sender⟩⟩) := by
  refine ⟨?_, ?_, ?_, ?_⟩
  · intro block_size free_space sender d st hb hfs
    rw [tftp_client_get_step_matched block_size free_space sender d st hb hfs]
    dsimp only
    split
    · simp [*]
    · simp [*]
  · intro file block_size sender recv st h16 hnext hb
    simp only [tftp_client_put_step, parse_packet_ack_wire recv h16]
    rw [if_pos hnext]
    have hc : create_packet_data st.block_number ((file.drop st.pos).take block_size) 512 =
        some (pack16 3 ++ pack16 st.block_number ++ (file.drop st.pos).take block_size) := by
      unfold create_packet_data
      rw [if_neg (by omega), if_neg (by simp)]
    rw [hc]
    dsimp only
    split
    · exact iff_of_true rfl (by assumption)
    · exact iff_of_false (by simp) (by assumption)
  · intro block_size free_space sender blocks st h1 hpos hfs hb
    have hfull := tftp_client_get_run_full_blocks block_size free_space sender hfs blocks st h1 hb
    have happ := tftp_client_get_run_append block_size free_space
      (serveEvents sender st.block_number blocks)
      (serveEvents sender (st.block_number + blocks.length) [[]]) st hfull.1
    have hserve := serveEvents_append sender blocks [[]] st.block_number
    have hmid : tftp_client_get_run block_size free_space
        (tftp_client_get_run block_size free_space st
          (serveEvents sender st.block_number blocks)).state
        (serveEvents sender (st.block_number + blocks.length) [[]]) =
        ⟨.done,
         [(create_packet_ack
             (tftp_client_get_run block_size free_space st
               (serveEvents sender st.block_number blocks)).state.block_number, sender)],
         ⟨(tftp_client_get_run block_size free_space st
             (serveEvents sender st.block_number blocks)).state.block_number + 1,
          (tftp_client_get_run block_size free_space st
             (serveEvents sender st.block_number blocks)).state.sink ++ [], sender⟩⟩ := by
      rw [← hfull.2.1]
      simp only [serveEvents]
      exact tftp_client_get_run_single_short block_size free_space sender []
        (tftp_client_get_run block_size free_space st
          (serveEvents sender st.block_number blocks)).state
        (by rw [hfull.2.1]; omega) hfs (by simpa using hpos)
    refine ⟨hfull.1, hfull.2.2.2, ?_, ?_⟩
    · rw [hserve, happ.1, hmid]
    · rw [hserve, happ.2, hmid, hfull.2.2.2]
      simp
  · intro block_size free_space sender d st hb hfs hd
    exact tftp_client_get_run_single_short block_size free_space sender d st hb hfs hd

/-- Witness for C3, part (1), at a concrete step: expected block 1, payload
of 7 bytes against block size 512. -/
theorem c3_short_payload_terminates_transfer_witness :
    (tftp_client_get_step 512 4096 0 (.packet (1, 69) (pack16 3 ++ pack16 1 ++ [7, 8, 9]))
        ⟨1, [], (1, 69)⟩).outcome = .done ↔ ([7, 8, 9] : List Nat).length < 512 :=
  c3_short_payload_terminates_transfer.1 512 4096 (1, 69) [7, 8, 9] ⟨1, [], (1, 69)⟩
    (by decide) (by decide)

end TFTP
